import Mathlib

/-!
Verification of the conversation-orchestration core of the `lieutenant`
voice daemon.  Shallow embedding of the pure decision logic of
`packages/voice-daemon/lieutenant_daemon/{server,state,stt,tts}.py`:
the state machine, the TTS flush rule, the hallucination filters, the
history cap, the barge-in tracker, the echo guard, the kill switch, the
wake handler and the TTS playing flag.  Times and signal levels are
modelled as rationals, machine state records as Lean structures, and the
per-frame / per-turn procedures as pure step functions over them.
-/

namespace Lieutenant

/-! ## Conversation states (`state.py`) -/

/-- The `State` enum of `state.py`. -/
inductive State
  | IDLE
  | LISTENING
  | THINKING
  | SPEAKING
  | CONVERSING
  deriving DecidableEq, Repr

/-- `StateMachine` of `state.py`: the current state plus the registered
listeners (abstract listener identifiers, registration order kept). -/
structure StateMachine (L : Type) where
  state : State
  listeners : List L

/-- `StateMachine.transition`: a transition to the state already held
returns without touching anything (no listener calls); otherwise the
state is replaced and every registered listener is invoked, in
registration order, with the new state.  The returned list records the
listener invocations as (listener, state passed) pairs. -/
def transition {L : Type} (m : StateMachine L) (new_state : State) :
    StateMachine L × List (L × State) :=
  if m.state = new_state then (m, [])
  else ({ m with state := new_state }, m.listeners.map (fun cb => (cb, new_state)))

/-! ## Python string helpers -/

/-- Accumulator pass behind `pySplit`: `word` holds the reversed
characters of the token being read. -/
def pySplitAux : List Char → List Char → List String
  | [], word => if word.isEmpty then [] else [String.mk word.reverse]
  | c :: cs, word =>
    if c.isWhitespace then
      if word.isEmpty then pySplitAux cs []
      else String.mk word.reverse :: pySplitAux cs []
    else pySplitAux cs (c :: word)

/-- Python `str.split()` with no argument (as in `final_text.split()`):
the maximal whitespace-free tokens, empty pieces dropped. -/
def pySplit (s : String) : List String :=
  pySplitAux s.data []

/-- Python `str.strip()` with no argument: leading and trailing
whitespace removed. -/
def pyStrip (s : String) : String :=
  String.mk (((s.data.dropWhile Char.isWhitespace).reverse.dropWhile Char.isWhitespace).reverse)

/-! ## TTS flush rule (`server.py:_should_flush_tts`) -/

/-- The regex `^\d+[.)\s]*$` of `_should_flush_tts` applied to the
stripped buffer: one or more digits followed only by `.`, `)` and
whitespace. -/
def isBareListMarker (s : String) : Bool :=
  let cs := s.data
  let digits := cs.takeWhile Char.isDigit
  let rest := cs.dropWhile Char.isDigit
  !digits.isEmpty && rest.all (fun c => c == '.' || c == ')' || c.isWhitespace)

/-- `for char in ".!?;·…\n": if char in buffer` — the buffer holds a
sentence-terminal character. -/
def hasSentenceTerminal (buffer : String) : Bool :=
  buffer.data.any (fun c =>
    c == '.' || c == '!' || c == '?' || c == ';' || c == '·' || c == '…' || c == '\n')

/-- The tail of `_should_flush_tts` after the marker and length guards:
flush on a sentence-terminal character, else on `len(buffer) > 120`,
else keep buffering. -/
def flushTail (buffer stripped : String) : Option String :=
  if hasSentenceTerminal buffer then some stripped
  else if buffer.length > 120 then some stripped
  else none

/-- `server.py:_should_flush_tts` (lines 741-759): returns the stripped
text to flush, or `none` to keep buffering.  Control flow mirrors the
source: the bare-numeric-marker test returns `none` first; then
`len(stripped) < 20` (with its vacuous inner `< 80` test) returns
`none`; then the terminal-character and max-length tests. -/
def shouldFlushTts (buffer : String) : Option String :=
  let stripped := pyStrip buffer
  if isBareListMarker stripped then none
  else if stripped.length < 20 then
    if stripped.length < 80 then none
    else flushTail buffer stripped
  else flushTail buffer stripped

/-! ## Default guard durations (`server.py` module constants) -/

/-- Default of `_BARGEIN_POST_TTS_GUARD_S` (`"1.2"` seconds,
`server.py` line 96). -/
def BARGEIN_POST_TTS_GUARD_S : ℚ := 12 / 10

/-- Default of `_TTS_ECHO_GUARD_S` (`"0.5"` seconds, `server.py`
line 113). -/
def TTS_ECHO_GUARD_S : ℚ := 5 / 10

/-! ## Echo suppression (`server.py:_audio_frame_handler`) -/

/-- The single mutable echo-guard deadline `_tts_echo_suppress_until`. -/
structure EchoState where
  suppressUntil : ℚ

/-- The STT-feeding decision of `_audio_frame_handler` (lines 899-918)
for one captured frame: while `tts.is_playing` the deadline is re-armed
to `now + guard` and the frame is not fed; a frame arriving before the
deadline is not fed; every other frame is fed to `stt.feed_audio`.
`tts_is_playing` is `false` when the TTS engine is absent (`tts` is
`None`).  Returns the new guard state and whether the frame was fed. -/
def echoSuppressStep (guard : ℚ) (st : EchoState) (now : ℚ)
    (tts_is_playing : Bool) : EchoState × Bool :=
  if tts_is_playing then (⟨now + guard⟩, false)
  else if now < st.suppressUntil then (st, false)
  else (st, true)

/-! ## Hallucination filters (`stt.py:_transcribe_whisper`, `server.py:_process_stt`) -/

/-- The repetition test of `server.py:_process_stt` (lines 487-492):
with at least 4 words, `" ".join(words[:half])` equals
`" ".join(words[half:2*half])` where `half = len(words) // 2`. -/
def serverIsRepetitive (final_text : String) : Bool :=
  let words := pySplit final_text
  if words.length ≥ 4 then
    let half := words.length / 2
    String.intercalate " " (words.take half)
      == String.intercalate " " ((words.drop half).take half)
  else false

/-- The final text the STT engine delivers for a listening window, as a
function of the raw joined Whisper segments
(`stt.py:_transcribe_whisper`, lines 427-443): a non-empty text of at
least 6 words whose joined halves agree is replaced by the empty string
(the engine's own repetition filter, applied with no regard to whether
speech energy was observed), and the engine then pushes
`final_text or "(no speech detected)"` as the final result. -/
def sttDeliveredFinal (whisper_text : String) : String :=
  let filtered :=
    if whisper_text ≠ "" then
      let words := pySplit whisper_text
      if words.length ≥ 6 then
        let half := words.length / 2
        if String.intercalate " " (words.take half)
            == String.intercalate " " ((words.drop half).take half) then ""
        else whisper_text
      else whisper_text
    else whisper_text
  if filtered = "" then "(no speech detected)" else filtered

/-- The orchestrator's hallucination filter
(`server.py:_process_stt`, lines 486-497): only when no speech energy
was observed and the text is non-empty is the (≥ 4 words) repetition
test applied; a repetitive text is discarded (set to `""`), anything
else — and any window with speech energy — is passed through. -/
def serverHallucinationFilter (speech_was_detected : Bool) (final_text : String) : String :=
  if speech_was_detected = false ∧ final_text ≠ "" then
    if serverIsRepetitive final_text then "" else final_text
  else final_text

/-- `server.py:_process_stt` line 499: the transcript is treated as "no
speech" (machine returns to `IDLE`) when it is empty or its stripped
form is one of the sentinel texts. -/
def isNoSpeechOutcome (final_text : String) : Bool :=
  final_text == "" || pyStrip final_text == "" || pyStrip final_text == "(no speech detected)"
    || pyStrip final_text == "(no speech)" || pyStrip final_text == "(STT unavailable)"

/-- One listening window end-to-end: the raw Whisper text passes the STT
engine's delivery step, then the orchestrator's hallucination filter,
and the window counts as "no speech" when `isNoSpeechOutcome` holds of
the result. -/
def windowTreatedAsNoSpeech (speech_was_detected : Bool) (whisper_text : String) : Bool :=
  isNoSpeechOutcome (serverHallucinationFilter speech_was_detected (sttDeliveredFinal whisper_text))

/-- The claim's own wording (for comparison with the code): the
transcript's words split evenly into two identical halves totalling at
least six words. -/
def splitsEvenlyIntoIdenticalHalves (text : String) : Bool :=
  let words := pySplit text
  words.length % 2 == 0 && decide (6 ≤ words.length)
    && words.take (words.length / 2) == words.drop (words.length / 2)

/-! ## Conversation history (`server.py:_query_agent`) -/

/-- A conversation-history role. -/
inductive Role
  | user
  | assistant
  deriving DecidableEq, Repr

/-- One `{"role": ..., "content": ...}` entry of `_conversation_history`. -/
structure Entry where
  role : Role
  content : String
  deriving DecidableEq, Repr

/-- Python `lst[-n:]` (the trim `_conversation_history[-_MAX_HISTORY:]`):
the last `n` entries — except that for `n = 0` Python returns the whole
list. -/
def pyTakeLast (l : List Entry) (n : Nat) : List Entry :=
  if n = 0 then l else l.drop (l.length - n)

/-- The history effect of one completed `_query_agent` turn
(`server.py`, lines 513-568): the user turn is appended on entry; after
the stream ends, only if the accumulated reply is non-empty is the
assistant turn appended and the history trimmed to the cap. -/
def queryAgentHistory (maxHistory : Nat) (history : List Entry)
    (text full_response : String) : List Entry :=
  let h := history ++ [⟨Role.user, text⟩]
  if full_response ≠ "" then
    let h2 := h ++ [⟨Role.assistant, full_response⟩]
    if h2.length > maxHistory then pyTakeLast h2 maxHistory else h2
  else h

/-- The history after a sequence of completed turns, each given as
(user text, accumulated assistant reply), starting from the empty
history. -/
def runTurns (maxHistory : Nat) (turns : List (String × String)) : List Entry :=
  turns.foldl (fun h t => queryAgentHistory maxHistory h t.1 t.2) []

/-- The uncapped insertion log of the same turns: every user entry, and
every non-empty assistant entry, in insertion order. -/
def fullTurnLog (turns : List (String × String)) : List Entry :=
  turns.foldl
    (fun h t =>
      if t.2 ≠ "" then h ++ [⟨Role.user, t.1⟩, ⟨Role.assistant, t.2⟩]
      else h ++ [⟨Role.user, t.1⟩])
    []

/-! ## Barge-in tracker (`server.py:_reset_bargein`, `_check_bargein`) -/

/-- The barge-in configuration constants of `server.py` lines 93-96. -/
structure BargeinConfig where
  rmsThreshold : ℚ
  framesNeeded : Nat
  cooldownS : ℚ
  postTtsGuardS : ℚ

/-- The code's default values: threshold `0.035`, 8 frames, cooldown
`1.5` s, post-TTS guard `1.2` s. -/
def defaultBargeinConfig : BargeinConfig :=
  ⟨35 / 1000, 8, 15 / 10, BARGEIN_POST_TTS_GUARD_S⟩

/-- The per-`SPEAKING`-session barge-in globals of `server.py`
lines 117-121. -/
structure BargeinState where
  highFrames : Nat
  speakingSince : ℚ
  triggered : Bool
  ttsWasPlaying : Bool
  ttsStoppedAt : ℚ
  deriving DecidableEq, Repr

/-- `server.py:_reset_bargein` (lines 762-770), run on entering
`SPEAKING`: counter zero, session start stamped `now`, flags cleared. -/
def resetBargein (now : ℚ) : BargeinState :=
  ⟨0, now, false, false, 0⟩

/-- One captured frame as the tracker sees it: its arrival time, whether
`tts.is_playing` held (`false` when `tts` is `None`), and the frame's
RMS energy (`sqrt(mean(float_data**2))` of the normalized samples,
taken here as an input). -/
structure Frame where
  time : ℚ
  ttsPlaying : Bool
  rms : ℚ

/-- `server.py:_check_bargein` (lines 773-833) on one frame: early
return when already triggered; counter reset and return during the
session cooldown and while TTS plays; the playing→stopped edge stamps
`ttsStoppedAt` and resets the counter; return during the post-TTS guard
(a never-stamped `ttsStoppedAt` of 0 counts as elapsed `999.0`); then a
frame above threshold increments the counter and one below decays it by
one (never below zero); on reaching `framesNeeded` the tracker sets the
one-shot flag, zeroes the counter and fires (schedules `_on_wake`).
Returns the new state and whether the barge-in fired. -/
def checkBargein (cfg : BargeinConfig) (s : BargeinState) (f : Frame) :
    BargeinState × Bool :=
  if s.triggered then (s, false)
  else if f.time - s.speakingSince < cfg.cooldownS then
    ({ s with highFrames := 0 }, false)
  else if f.ttsPlaying then
    ({ s with ttsWasPlaying := true, highFrames := 0 }, false)
  else
    let s1 :=
      if s.ttsWasPlaying then
        { s with ttsWasPlaying := false, ttsStoppedAt := f.time, highFrames := 0 }
      else s
    let elapsedSinceTts : ℚ := if s1.ttsStoppedAt > 0 then f.time - s1.ttsStoppedAt else 999
    if elapsedSinceTts < cfg.postTtsGuardS then
      ({ s1 with highFrames := 0 }, false)
    else
      let hf := if f.rms > cfg.rmsThreshold then s1.highFrames + 1 else s1.highFrames - 1
      if hf ≥ cfg.framesNeeded then
        ({ s1 with highFrames := 0, triggered := true }, true)
      else
        ({ s1 with highFrames := hf }, false)

/-- A whole `SPEAKING` session: the tracker folded over the captured
frames, collecting per-frame fire flags. -/
def runBargein (cfg : BargeinConfig) (s : BargeinState) :
    List Frame → BargeinState × List Bool
  | [] => (s, [])
  | f :: fs =>
    let step := checkBargein cfg s f
    let rest := runBargein cfg step.1 fs
    (rest.1, step.2 :: rest.2)

/-! ## TTS engine flag (`tts.py:TTSEngine.speak`, `cancel`) -/

/-- The `TTSEngine` flags `_playing` and `_cancelled`. -/
structure TTS where
  playing : Bool
  cancelled : Bool
  deriving DecidableEq, Repr

/-- `TTSEngine.cancel` (lines 72-81): sets `_cancelled`, clears
`_playing` immediately, and kills the player process — it does not wait
for playback to finish. -/
def ttsCancel (t : TTS) : TTS :=
  { t with cancelled := true, playing := false }

/-- One iteration's external inputs for `TTSEngine.speak`'s sentence
loop: the sentence text, whether `cancel()` ran between the previous
iteration's check and this one's, whether `cancel()` ran during the
awaited `_speak_one`, and whether `_speak_one` reported success. -/
structure SpeakItem where
  sentence : String
  cancelBefore : Bool
  cancelDuring : Bool
  speakOk : Bool

/-- The sentence loop of `TTSEngine.speak` (lines 97-113): each
iteration first honours a pending cancellation (clearing `_playing`,
returning `False`), skips sentences that strip to empty, then speaks;
a failed or cancelled sentence clears `_playing` and returns `False`;
falling off the loop clears `_playing` and returns `True`. -/
def speakLoop (t : TTS) : List SpeakItem → TTS × Bool
  | [] => ({ t with playing := false }, true)
  | item :: rest =>
    let t0 := if item.cancelBefore then ttsCancel t else t
    if t0.cancelled then ({ t0 with playing := false }, false)
    else if pyStrip item.sentence = "" then speakLoop t0 rest
    else
      let t1 := if item.cancelDuring then ttsCancel t0 else t0
      if item.speakOk = false ∨ t1.cancelled then ({ t1 with playing := false }, false)
      else speakLoop t1 rest

/-- `TTSEngine.speak` (lines 83-113): clears `_cancelled`, sets
`_playing`, and returns early (clearing `_playing`) when
`_split_sentences` produced nothing; otherwise runs the sentence
loop.  The sentences and the asynchronous cancel/failure events are the
`SpeakItem` inputs. -/
def speak (t : TTS) (items : List SpeakItem) : TTS × Bool :=
  let t0 : TTS := { t with cancelled := false, playing := true }
  if items.isEmpty then ({ t0 with playing := false }, true)
  else speakLoop t0 items

/-! ## Orchestrator state, kill switch and wake handler (`server.py`) -/

/-- The orchestrator's mutable module state that `_kill_switch` and
`_on_wake` touch: the machine's state, the optional TTS engine, the
optional wake detector's `enabled` flag, the STT `_active` flag, the
conversation history, and whether a `_converse_task` is pending. -/
structure Daemon where
  smState : State
  tts : Option TTS
  wakeEnabled : Option Bool
  sttActive : Bool
  history : List Entry
  conversePending : Bool

/-- Observable actions of the wake handler, in execution order. -/
inductive Event
  | converseCancel
  | ttsCancel
  | smTransition (s : State)
  | hubState (s : State)
  | startListening
  | speakAck
  deriving DecidableEq, Repr

/-- `sm.transition(new_state)` as the daemon sees it: the no-op rule of
`state.py` applies, and an actual change is recorded as an event. -/
def transitionD (d : Daemon) (new_state : State) : Daemon × List Event :=
  if d.smState = new_state then (d, [])
  else ({ d with smState := new_state }, [Event.smTransition new_state])

/-- `server.py:_start_listening` (lines 420-428): disarm the spotter,
arm the STT collaborator, spawn `_process_stt`. -/
def startListeningD (d : Daemon) : Daemon × List Event :=
  ({ d with wakeEnabled := d.wakeEnabled.map (fun _ => false), sttActive := true },
   [Event.startListening])

/-- `server.py:_kill_switch` (lines 836-850): cancel a pending
converse task, cancel the TTS engine when present, stop the STT
utterance, re-enable the spotter when present, clear the history, and
transition to `IDLE`. -/
def killSwitch (d : Daemon) : Daemon :=
  { d with
    conversePending := false
    tts := d.tts.map ttsCancel
    sttActive := false
    wakeEnabled := d.wakeEnabled.map (fun _ => true)
    history := []
    smState := State.IDLE }

/-- `server.py:_on_wake` (lines 361-403): cancel a pending converse
task; in `CONVERSING` go straight to listening; in `SPEAKING` cancel
playback (when a TTS engine exists) and go to listening; in the other
non-`IDLE` states do nothing; from `IDLE` disarm the spotter, go to
listening and either play the acknowledgement (TTS present) or start
listening at once.  Returns the new daemon state and the events in
execution order. -/
def onWake (d : Daemon) : Daemon × List Event :=
  let pre := if d.conversePending then [Event.converseCancel] else []
  let d0 : Daemon := { d with conversePending := false }
  if d0.smState = State.CONVERSING then
    let t := transitionD d0 State.LISTENING
    let l := startListeningD t.1
    (l.1, pre ++ t.2 ++ [Event.hubState State.LISTENING] ++ l.2)
  else if d0.smState ≠ State.IDLE then
    if d0.smState = State.SPEAKING then
      let cancelEvs := if d0.tts.isSome then [Event.ttsCancel] else []
      let d1 : Daemon := { d0 with tts := d0.tts.map ttsCancel }
      let t := transitionD d1 State.LISTENING
      let l := startListeningD t.1
      (l.1, pre ++ cancelEvs ++ t.2 ++ [Event.hubState State.LISTENING] ++ l.2)
    else (d0, pre)
  else
    let d1 : Daemon := { d0 with wakeEnabled := d0.wakeEnabled.map (fun _ => false) }
    let t := transitionD d1 State.LISTENING
    if d1.tts.isSome then
      (t.1, pre ++ t.2 ++ [Event.hubState State.LISTENING, Event.speakAck])
    else
      let l := startListeningD t.1
      (l.1, pre ++ t.2 ++ [Event.hubState State.LISTENING] ++ l.2)

/-! ## Helper lemmas -/

/-- The sentence loop of `speak` clears `_playing` on every return path. -/
theorem speakLoop_playing (items : List SpeakItem) :
    ∀ t : TTS, ((speakLoop t items).1).playing = false := by
  induction items with
  | nil => intro t; rfl
  | cons i rest ih =>
    intro t
    simp only [speakLoop]
    split_ifs <;> simp [ih, ttsCancel]

/-- A triggered tracker ignores the frame entirely. -/
theorem checkBargein_of_triggered (cfg : BargeinConfig) (s : BargeinState) (f : Frame)
    (h : s.triggered = true) : checkBargein cfg s f = (s, false) := by
  unfold checkBargein
  rw [if_pos h]

/-- After one frame the one-shot flag holds exactly when it already held
or the frame fired. -/
theorem checkBargein_triggered_eq (cfg : BargeinConfig) (s : BargeinState) (f : Frame) :
    ((checkBargein cfg s f).1).triggered = (s.triggered || (checkBargein cfg s f).2) := by
  unfold checkBargein
  split_ifs <;> simp_all <;> try (split_ifs <;> simp_all)

/-- A triggered tracker never fires again for the rest of the session. -/
theorem runBargein_count_of_triggered (cfg : BargeinConfig) (frames : List Frame) :
    ∀ s : BargeinState, s.triggered = true →
      ((runBargein cfg s frames).2).count true = 0 := by
  induction frames with
  | nil => intro s _; simp [runBargein]
  | cons f fs ih =>
    intro s h
    simp only [runBargein, checkBargein_of_triggered cfg s f h]
    simp [List.count_cons, ih s h]

/-- From an untriggered tracker, a session fires at most once. -/
theorem runBargein_count_le_one (cfg : BargeinConfig) (frames : List Frame) :
    ∀ s : BargeinState, s.triggered = false →
      ((runBargein cfg s frames).2).count true ≤ 1 := by
  induction frames with
  | nil => intro s _; simp [runBargein]
  | cons f fs ih =>
    intro s h
    simp only [runBargein]
    rcases hfire : (checkBargein cfg s f).2 with _ | _
    · have htr : ((checkBargein cfg s f).1).triggered = false := by
        rw [checkBargein_triggered_eq, h, hfire]
        rfl
      simp [List.count_cons, hfire, ih _ htr]
    · have htr : ((checkBargein cfg s f).1).triggered = true := by
        rw [checkBargein_triggered_eq, hfire]
        simp
      simp [List.count_cons, hfire, runBargein_count_of_triggered cfg fs _ htr]

/-- The orchestrator's filter passes the sentinel text through for
either value of the speech flag. -/
theorem serverHallucinationFilter_sentinel (speech : Bool) :
    serverHallucinationFilter speech "(no speech detected)" = "(no speech detected)" := by
  cases speech <;> decide

/-- One turn with a non-empty reply keeps the history within the cap. -/
theorem queryAgentHistory_length_le (cap : Nat) (h : List Entry) (u r : String)
    (hcap : 1 ≤ cap) (hr : r ≠ "") (hlen : h.length ≤ cap) :
    (queryAgentHistory cap h u r).length ≤ cap := by
  unfold queryAgentHistory
  rw [if_pos hr]
  dsimp only
  split_ifs with h1
  · unfold pyTakeLast
    rw [if_neg (by omega : ¬ cap = 0), List.length_drop]
    omega
  · simp only [List.length_append, List.length_cons, List.length_nil] at h1
    simp only [List.length_append, List.length_cons, List.length_nil]
    omega

/-- One turn with a non-empty reply keeps the history a suffix of the
insertion log extended by the turn's two entries. -/
theorem queryAgentHistory_suffix (cap : Nat) (h H : List Entry) (u r : String)
    (hr : r ≠ "") (hs : h.IsSuffix H) :
    (queryAgentHistory cap h u r).IsSuffix
      (H ++ [Entry.mk Role.user u, Entry.mk Role.assistant r]) := by
  obtain ⟨p, hp⟩ := hs
  have hbase : (h ++ [Entry.mk Role.user u, Entry.mk Role.assistant r]).IsSuffix
      (H ++ [Entry.mk Role.user u, Entry.mk Role.assistant r]) :=
    ⟨p, by rw [← hp, List.append_assoc]⟩
  have heq : h ++ [Entry.mk Role.user u] ++ [Entry.mk Role.assistant r]
      = h ++ [Entry.mk Role.user u, Entry.mk Role.assistant r] := by
    simp
  unfold queryAgentHistory
  rw [if_pos hr]
  dsimp only
  split_ifs with h1
  · unfold pyTakeLast
    split_ifs with h2
    · rw [heq]
      exact hbase
    · exact List.IsSuffix.trans (heq ▸ List.drop_suffix _ _) hbase
  · rw [heq]
    exact hbase

/-- The fold invariant behind the history cap: starting from a history
within the cap that is a suffix of the log, any sequence of turns with
non-empty replies ends within the cap and a suffix of the extended
log. -/
theorem runTurns_invariant (cap : Nat) (turns : List (String × String)) :
    ∀ h H : List Entry, 1 ≤ cap → (∀ t ∈ turns, t.2 ≠ "") →
      h.length ≤ cap → h.IsSuffix H →
      (turns.foldl (fun acc t => queryAgentHistory cap acc t.1 t.2) h).length ≤ cap ∧
      (turns.foldl (fun acc t => queryAgentHistory cap acc t.1 t.2) h).IsSuffix
        (turns.foldl
          (fun acc t =>
            if t.2 ≠ "" then acc ++ [Entry.mk Role.user t.1, Entry.mk Role.assistant t.2]
            else acc ++ [Entry.mk Role.user t.1]) H) := by
  induction turns with
  | nil => intro h H _ _ hl hs; exact ⟨hl, hs⟩
  | cons t ts ih =>
    intro h H hcap hrep hl hs
    have hr : t.2 ≠ "" := hrep t (List.mem_cons_self t ts)
    simp only [List.foldl_cons]
    rw [if_pos hr]
    exact ih (queryAgentHistory cap h t.1 t.2)
      (H ++ [Entry.mk Role.user t.1, Entry.mk Role.assistant t.2])
      hcap (fun x hx => hrep x (List.mem_cons_of_mem t hx))
      (queryAgentHistory_length_le cap h t.1 t.2 hcap hr hl)
      (queryAgentHistory_suffix cap h H t.1 t.2 hr hs)

/-! ## Claim theorems -/

/-- Claim C1, counterexample: a window in which speech energy WAS
observed still loses its transcript to the repetition rule, because the
STT engine's own ≥6-word filter (`stt.py` lines 429-438) runs with no
regard to the speech flag: raw Whisper text `"a b c a b c"` is delivered
as the sentinel and the window is treated as no speech. -/
theorem C1_counterexample :
    windowTreatedAsNoSpeech true "a b c a b c" = true
    ∧ sttDeliveredFinal "a b c a b c" = "(no speech detected)"
    ∧ splitsEvenlyIntoIdenticalHalves "a b c a b c" = true := by
  refine ⟨by decide, by decide, by decide⟩

/-- Claim C1 (amended): a transcript whose words split evenly into two
identical halves totalling at least six words is discarded whether or
not speech energy was observed (the STT engine's own repetition filter
applies unconditionally); what holds of the speech flag is that the
orchestrator's filter never discards a transcript from a window with
speech energy. -/
theorem C1_hallucination_filter (speech : Bool) (text : String) :
    (splitsEvenlyIntoIdenticalHalves text = true →
      windowTreatedAsNoSpeech speech text = true)
    ∧ serverHallucinationFilter true text = text := by
  constructor
  · intro hrep
    have hw : sttDeliveredFinal text = "(no speech detected)" := by
      unfold splitsEvenlyIntoIdenticalHalves at hrep
      simp only [Bool.and_eq_true, beq_iff_eq, decide_eq_true_eq] at hrep
      obtain ⟨⟨hmod, hlen⟩, hhalf⟩ := hrep
      have hne : text ≠ "" := by
        intro he
        rw [he] at hlen
        have h0 : (pySplit "").length = 0 := by decide
        omega
      have hdt : ((pySplit text).drop ((pySplit text).length / 2)).take
            ((pySplit text).length / 2)
          = (pySplit text).drop ((pySplit text).length / 2) := by
        apply List.take_of_length_le
        rw [List.length_drop]
        omega
      unfold sttDeliveredFinal
      dsimp only
      rw [if_pos hne, if_pos hlen, hdt, hhalf]
      simp
    unfold windowTreatedAsNoSpeech
    rw [hw, serverHallucinationFilter_sentinel]
    decide
  · unfold serverHallucinationFilter
    simp

/-- Claim C2, counterexample: with the default cap of 30, a run of 31
completed turns whose assistant replies are all empty leaves 31 entries
in the history — the user turn is appended unconditionally but the trim
runs only inside the non-empty-reply branch. -/
theorem C2_counterexample :
    30 < (runTurns 30 (List.replicate 31 ("hi", ""))).length := by
  decide

/-- Claim C2 (amended): after any number of completed turns whose
assistant replies are non-empty (and with a positive cap), the history
stays within the cap and is a suffix — the most recent entries in
insertion order — of the uncapped insertion log; a turn with an empty
reply appends the user entry without trimming and can exceed the cap. -/
theorem C2_history_cap (cap : Nat) (turns : List (String × String))
    (hcap : 1 ≤ cap) (hrep : ∀ t ∈ turns, t.2 ≠ "") :
    (runTurns cap turns).length ≤ cap
    ∧ (runTurns cap turns).IsSuffix (fullTurnLog turns) := by
  have h := runTurns_invariant cap turns [] [] hcap hrep (by simp) ⟨[], rfl⟩
  simpa [runTurns, fullTurnLog] using h

/-- Witness for C2's theorem at a concrete run: cap 2, two turns with
non-empty replies. -/
theorem C2_history_cap_witness :
    (runTurns 2 [("a", "x"), ("b", "y")]).length ≤ 2
    ∧ (runTurns 2 [("a", "x"), ("b", "y")]).IsSuffix
        (fullTurnLog [("a", "x"), ("b", "y")]) :=
  C2_history_cap 2 [("a", "x"), ("b", "y")] (by decide) (by decide)

/-- Claim C3: a frame fires the barge-in exactly when the tracker is
not yet triggered, the cooldown has elapsed, TTS is not playing, the
post-TTS guard has elapsed, and this frame's update of the counter
(zeroed at a playing-to-stopped edge) reaches the configured count — so frames that never bring the counter to the count
never fire; a triggered tracker ignores every later frame unchanged;
and a whole session from the reset state fires at most once. -/
theorem C3_bargein_oneshot (cfg : BargeinConfig) (s : BargeinState) (f : Frame)
    (t0 : ℚ) (frames : List Frame) :
    ((checkBargein cfg s f).2 = true ↔
      s.triggered = false
      ∧ cfg.cooldownS ≤ f.time - s.speakingSince
      ∧ f.ttsPlaying = false
      ∧ cfg.postTtsGuardS ≤
          (if (if s.ttsWasPlaying then f.time else s.ttsStoppedAt) > 0
           then f.time - (if s.ttsWasPlaying then f.time else s.ttsStoppedAt)
           else 999)
      ∧ cfg.framesNeeded ≤
          (if f.rms > cfg.rmsThreshold
           then (if s.ttsWasPlaying then 0 else s.highFrames) + 1
           else (if s.ttsWasPlaying then 0 else s.highFrames) - 1))
    ∧ checkBargein cfg { s with triggered := true } f = ({ s with triggered := true }, false)
    ∧ ((runBargein cfg (resetBargein t0) frames).2).count true ≤ 1 := by
  refine ⟨?_, ?_, runBargein_count_le_one cfg frames _ rfl⟩
  · unfold checkBargein
    split_ifs <;> simp_all [not_lt] <;> try (split_ifs <;> simp_all [not_lt]) <;> exfalso <;> linarith
  · unfold checkBargein
    simp

/-- Claim C4: a captured frame reaches `stt.feed_audio` exactly when
synthesis is not playing and the frame does not arrive before the
echo-guard deadline; and the deadline is re-armed to now plus the guard
duration exactly when playback is observed. -/
theorem C4_echo_suppression (guard : ℚ) (st : EchoState) (now : ℚ) (playing : Bool) :
    ((echoSuppressStep guard st now playing).2 = true ↔
      playing = false ∧ st.suppressUntil ≤ now)
    ∧ ((echoSuppressStep guard st now playing).1).suppressUntil
        = (if playing then now + guard else st.suppressUntil) := by
  unfold echoSuppressStep
  cases playing <;> split_ifs <;> simp_all [not_lt]

set_option maxRecDepth 4000 in
/-- Claim C5, counterexample: a buffer of 131 characters — well over the
maximum length — that is a bare numeric list marker (`"1"` followed by
130 `)` characters) is NOT flushed, refuting "regardless of those
conditions, whenever the buffer exceeds the maximum length". -/
theorem C5_counterexample :
    shouldFlushTts ("1" ++ String.mk (List.replicate 130 ')')) = none
    ∧ 120 < ("1" ++ String.mk (List.replicate 130 ')')).length := by
  refine ⟨by decide, by decide⟩

/-- Claim C5 (amended): the buffered chunk is flushed (as its stripped
form) exactly when the stripped buffer is not a bare numeric list
marker, has at least 20 characters, and either the buffer contains a
sentence-terminal character or the buffer exceeds 120 characters; the
numeric-marker and minimum-length guards also veto the max-length
flush. -/
theorem C5_flush_rule (buffer : String) :
    shouldFlushTts buffer =
      (if isBareListMarker (pyStrip buffer) = false ∧ 20 ≤ (pyStrip buffer).length
          ∧ (hasSentenceTerminal buffer = true ∨ 120 < buffer.length)
       then some (pyStrip buffer) else none) := by
  unfold shouldFlushTts flushTail
  dsimp only
  split_ifs <;> simp_all [not_lt] <;> omega

/-- Claim C6: `transition` to the state already held is a no-op — same
machine, zero listener invocations; a transition to a different state
replaces the state and invokes every registered listener in
registration order with the new state. -/
theorem C6_transition_idempotent {L : Type} (m : StateMachine L) (s : State) :
    transition m m.state = (m, [])
    ∧ (m.state ≠ s →
        transition m s
          = ({ m with state := s }, m.listeners.map (fun cb => (cb, s)))) := by
  constructor
  · simp [transition]
  · intro h
    simp [transition, h]

/-- Witness for C6's theorem at a concrete machine: already in `IDLE`,
then a transition to `LISTENING` with two listeners. -/
theorem C6_transition_idempotent_witness :
    transition (StateMachine.mk State.IDLE [0, 1]) State.IDLE
      = (StateMachine.mk State.IDLE [0, 1], [])
    ∧ transition (StateMachine.mk State.IDLE [0, 1]) State.LISTENING
      = (StateMachine.mk State.LISTENING [0, 1],
         [(0, State.LISTENING), (1, State.LISTENING)]) := by
  have h := C6_transition_idempotent (StateMachine.mk State.IDLE [(0 : Nat), 1]) State.LISTENING
  exact ⟨h.1, h.2 (by decide)⟩

/-- Claim C7: the kill switch, from any daemon state and with no
precondition, cancels any in-flight synthesis, stops listening, clears
the history, re-arms the spotter and leaves the machine in `IDLE`. -/
theorem C7_kill_switch (d : Daemon) :
    (killSwitch d).smState = State.IDLE
    ∧ (killSwitch d).history = []
    ∧ (killSwitch d).sttActive = false
    ∧ (killSwitch d).tts = d.tts.map ttsCancel
    ∧ (∀ t : TTS, (ttsCancel t).playing = false ∧ (ttsCancel t).cancelled = true)
    ∧ (killSwitch d).wakeEnabled = d.wakeEnabled.map (fun _ => true)
    ∧ (killSwitch d).conversePending = false :=
  ⟨rfl, rfl, rfl, rfl, fun _ => ⟨rfl, rfl⟩, rfl, rfl⟩

/-- Claim C8: a wake event while `SPEAKING` (with a synthesis engine in
flight) ends in `LISTENING`, the only state transition in the trace is
to `LISTENING` (no intermediate `IDLE`), and the synthesis cancellation
immediately precedes that transition. -/
theorem C8_wake_while_speaking (d : Daemon) (t : TTS)
    (hs : d.smState = State.SPEAKING) (ht : d.tts = some t) :
    (onWake d).1.smState = State.LISTENING
    ∧ (∀ s : State, Event.smTransition s ∈ (onWake d).2 → s = State.LISTENING)
    ∧ ∃ pre : List Event,
        (onWake d).2
          = pre ++ [Event.ttsCancel, Event.smTransition State.LISTENING,
              Event.hubState State.LISTENING, Event.startListening]
        ∧ Event.ttsCancel ∉ pre := by
  obtain ⟨sm, tts0, w, sa, hist, cp⟩ := d
  dsimp only at hs ht
  subst hs
  subst ht
  cases cp
  · refine ⟨by simp [onWake, transitionD, startListeningD], ?_, [], ?_, by simp⟩
    · intro s hmem
      simp [onWake, transitionD, startListeningD] at hmem
      exact hmem
    · simp [onWake, transitionD, startListeningD]
  · refine ⟨by simp [onWake, transitionD, startListeningD], ?_, [Event.converseCancel], ?_, by simp⟩
    · intro s hmem
      simp [onWake, transitionD, startListeningD] at hmem
      exact hmem
    · simp [onWake, transitionD, startListeningD]

/-- Witness for C8's theorem at a concrete daemon: `SPEAKING`, a playing
TTS engine, no pending converse task. -/
theorem C8_wake_while_speaking_witness :
    (onWake (Daemon.mk State.SPEAKING (some (TTS.mk true false)) (some true) false [] false)).1.smState
        = State.LISTENING
    ∧ (∀ s : State,
        Event.smTransition s
          ∈ (onWake (Daemon.mk State.SPEAKING (some (TTS.mk true false)) (some true) false [] false)).2
        → s = State.LISTENING)
    ∧ ∃ pre : List Event,
        (onWake (Daemon.mk State.SPEAKING (some (TTS.mk true false)) (some true) false [] false)).2
          = pre ++ [Event.ttsCancel, Event.smTransition State.LISTENING,
              Event.hubState State.LISTENING, Event.startListening]
        ∧ Event.ttsCancel ∉ pre :=
  C8_wake_while_speaking
    (Daemon.mk State.SPEAKING (some (TTS.mk true false)) (some true) false [] false)
    (TTS.mk true false) rfl rfl

/-- Claim C9, counterexample: with the code's default values the
post-playback barge-in guard (1.2 s) is NOT shorter than the
echo-suppression guard duration (0.5 s). -/
theorem C9_counterexample :
    ¬ defaultBargeinConfig.postTtsGuardS < TTS_ECHO_GUARD_S := by
  norm_num [defaultBargeinConfig, BARGEIN_POST_TTS_GUARD_S, TTS_ECHO_GUARD_S]

/-- Claim C9 (amended): with the default configuration values the
post-playback barge-in guard window is LONGER than the echo-suppression
guard duration, not shorter. -/
theorem C9_guard_durations :
    TTS_ECHO_GUARD_S < defaultBargeinConfig.postTtsGuardS := by
  norm_num [defaultBargeinConfig, BARGEIN_POST_TTS_GUARD_S, TTS_ECHO_GUARD_S]

/-- Claim C10: `speak` returns with `is_playing` false on every return
path (empty input, completion, cancellation, per-sentence failure), and
`cancel` clears `is_playing` immediately. -/
theorem C10_tts_playing_flag (t : TTS) (items : List SpeakItem) :
    ((speak t items).1).playing = false
    ∧ (ttsCancel t).playing = false
    ∧ (ttsCancel t).cancelled = true := by
  refine ⟨?_, rfl, rfl⟩
  unfold speak
  dsimp only
  split_ifs
  · rfl
  · exact speakLoop_playing items _

end Lieutenant
